import Mathlib

/-!
Verification development for the sara-social-media-bot posting script.

The script (src/main.py and src/social/) is embedded shallowly:
* pure functions (`format_post`, `get_next_post`, `prepare_post_content`,
  `_get_sorted_image_paths`) become Lean functions over structured data;
* Python exceptions become an explicit `PyExn` type threaded through
  `Except`; a `try/except (A, B)` clause becomes a catch of the
  corresponding `PyExn` constructors;
* YAML state files become an inductive `StateFileContent` describing the
  shapes the loader distinguishes (missing, unreadable, parsed mapping);
* the one external effect per platform (the HTTP publish call) is
  parametrised by its outcome (`PubResult`): either the call returned a
  value (possibly Python `None`) or raised an exception.

Cursor indices are modelled as `Nat`: the persisted values the spec and
claims discuss are non-negative integers.
-/

deriving instance DecidableEq for Except

/-- Python exception classes relevant to the script's `try/except` clauses.
`tweepyError` stands for `tweepy.TweepyException`, `requestsError` for the
`requests` library's request exceptions; neither appears in any `except`
tuple of `main.py`. -/
inductive PyExn where
  | keyError
  | valueError
  | osError
  | typeError
  | indexError
  | tweepyError
  | requestsError
deriving DecidableEq, Repr

/-- A post as loaded from a category's `posts.yaml`: text, an optional
Facebook-only footer, an optional hashtag list, and the list of platform
names the post targets (spec: the eligible-platform set). -/
structure Post where
  text : String
  facebook_footer : Option String := none
  hashtags : Option (List String) := none
  platforms : List String := []
deriving DecidableEq, Repr

/-- Per-platform cursor persisted in the state file
(`{post_index, image_index}`). -/
structure Cursor where
  post_index : Nat
  image_index : Nat
deriving DecidableEq, Repr

/-- The in-memory state: one cursor per platform. `main.py` only ever
touches the keys `"facebook"` and `"twitter"`. -/
structure BotState where
  facebook : Cursor
  twitter : Cursor
deriving DecidableEq, Repr

/-- Embedding of `format_post` (main.py lines 94-120). With structured
posts the `KeyError/TypeError` handler of the Python function is
unreachable, so the embedding is total. -/
def format_post (post : Post) (platform : String) : String :=
  let text := post.text
  let text :=
    if platform = "facebook" then
      match post.facebook_footer with
      | some f => text ++ "\n\n" ++ f
      | none => text
    else text
  match post.hashtags with
  | some tags => text ++ "\n\n" ++ String.intercalate " " (tags.map (fun tag => "#" ++ tag))
  | none => text

/-- One `for i in range(...)` loop body of `get_next_post`: visit the given
indices in order, return the first post at an eligible index together with
`i + 1`. `posts[i]` raises `IndexError` when `i ≥ len(posts)`; `IndexError`
is not in the function's `except (KeyError, TypeError)` tuple, so it
propagates. -/
def scanIdx (posts : List Post) (platform : String) :
    List Nat → Except PyExn (Option (Post × Nat))
  | [] => .ok none
  | i :: rest =>
    match posts[i]? with
    | some p =>
      if platform ∈ p.platforms then .ok (some (p, i + 1))
      else scanIdx posts platform rest
    | none => .error .indexError

/-- Embedding of `get_next_post` (main.py lines 122-145): scan indices
`range(last_index, len(posts))` then wrap to `range(0, last_index)`; return
the first eligible post together with its position + 1, or `(None, 0)` if
no post is eligible. With structured posts the `KeyError/TypeError`
handler is unreachable; an `IndexError` from the wrap loop escapes. -/
def get_next_post (posts : List Post) (platform : String) (last_index : Nat) :
    Except PyExn (Option Post × Nat) :=
  match scanIdx posts platform (List.range' last_index (posts.length - last_index)) with
  | .ok (some (p, n)) => .ok (some p, n)
  | .ok none =>
    match scanIdx posts platform (List.range last_index) with
    | .ok (some (p, n)) => .ok (some p, n)
    | .ok none => .ok (none, 0)
    | .error e => .error e
  | .error e => .error e

/-- Embedding of `prepare_post_content` (main.py lines 207-224); the image
list is the result of `_get_sorted_image_paths`, passed explicitly. The
Python function returns a triple whose slots may be `None`:
`(None, None, None)` when the formatted text is falsy (here: empty) is
modelled as `none`; otherwise `some (text, optional image, next image
index)`. -/
def prepare_post_content (post : Post) (platform : String)
    (current_image_index : Nat) (sorted_paths : List String) :
    Option (String × Option String × Nat) :=
  let formatted_text := format_post post platform
  if formatted_text = "" then none
  else if h : sorted_paths.length = 0 then some (formatted_text, none, 0)
  else
    let total := sorted_paths.length
    some (formatted_text,
      some (sorted_paths.get ⟨current_image_index % total,
        Nat.mod_lt _ (Nat.pos_of_ne_zero h)⟩),
      (current_image_index + 1) % total)

example : get_next_post
    [{ text := "a", platforms := ["facebook"] },
     { text := "b", platforms := ["twitter"] },
     { text := "c", platforms := ["facebook", "twitter"] }] "twitter" 0 =
    .ok (some { text := "b", platforms := ["twitter"] }, 2) := rfl

example : get_next_post [{ text := "a", platforms := ["facebook"] }] "twitter" 2 =
    .error .indexError := rfl

/-! ## State store (main.py `load_state` / `save_state`) -/

/-- The per-platform value found in a parsed state file, in the shapes the
loader distinguishes: the legacy format (a bare integer) or the structured
mapping, each key optional (`setdefault` fills in 0). -/
inductive RawCursor where
  | int (n : Nat)
  | dict (post_index : Option Nat) (image_index : Option Nat)
deriving DecidableEq, Repr

/-- A parsed state file, restricted to the two platform keys `main.py`
reads; a platform key may be absent. -/
structure RawState where
  facebook : Option RawCursor := none
  twitter : Option RawCursor := none
deriving DecidableEq, Repr

/-- What `load_state` finds on disk: no file, a file whose open/parse
raises `OSError`/`yaml.YAMLError`, or a parsed mapping (an empty or null
file parses to the empty mapping). -/
inductive StateFileContent where
  | missing
  | unreadable
  | parsed (s : RawState)
deriving DecidableEq, Repr

/-- The default per-platform cursor `{"post_index": 0, "image_index": 0}`. -/
def default_cursor : Cursor := { post_index := 0, image_index := 0 }

/-- Per-platform migration step of `load_state` (main.py lines 64-73):
a bare integer `n` becomes `{post_index: n, image_index: 0}`; a structured
mapping gets missing keys defaulted to 0; an absent platform key gets the
default cursor. -/
def migrate_platform : Option RawCursor → Cursor
  | some (.int n) => { post_index := n, image_index := 0 }
  | some (.dict pi ii) => { post_index := pi.getD 0, image_index := ii.getD 0 }
  | none => default_cursor

/-- Embedding of `load_state` (main.py lines 45-78): missing file and
open/parse errors give the default state; a parsed mapping is migrated per
platform. The function is total: within the modelled value space it never
raises. -/
def load_state : StateFileContent → BotState
  | .missing => { facebook := default_cursor, twitter := default_cursor }
  | .unreadable => { facebook := default_cursor, twitter := default_cursor }
  | .parsed s => { facebook := migrate_platform s.facebook,
                   twitter := migrate_platform s.twitter }

/-- Embedding of `save_state` (main.py lines 80-92): `yaml.safe_dump` of
the in-memory state writes each platform as a structured mapping with both
keys present. Modelled as the file content a successful write produces
(a failing write is logged and leaves the previous content; the round-trip
claim concerns a completed save). -/
def save_state (state : BotState) : StateFileContent :=
  .parsed
    { facebook := some (.dict (some state.facebook.post_index) (some state.facebook.image_index)),
      twitter := some (.dict (some state.twitter.post_index) (some state.twitter.image_index)) }

/-! ## Image directory scan (main.py `_get_sorted_image_paths`) -/

/-- A file in the category's image directory, split as `pathlib` does:
`stem` (name up to the last dot) and `ext` (suffix after the last dot). -/
structure ImgFile where
  stem : String
  ext : String
deriving DecidableEq, Repr

/-- Whether a file matches the glob pattern `f"{post_type}_*.{ext}"`:
the suffix equals `ext` and the stem starts with `post_type` followed by
an underscore (`*` matches any, possibly empty, run of characters). -/
def globMatch (post_type : String) (ext : String) (f : ImgFile) : Bool :=
  f.ext = ext && (post_type ++ "_").data.isPrefixOf f.stem.data

/-- Python's `str.split` with a one-character separator, on the character
list: `"a_b_".split('_') == ["a", "b", ""]`, `"abc".split('_') == ["abc"]`. -/
def splitChar (c : Char) : List Char → List Char → List (List Char)
  | [], acc => [acc.reverse]
  | x :: xs, acc =>
    if x = c then acc.reverse :: splitChar c xs []
    else splitChar c xs (x :: acc)

/-- Digit run parsed as a number; `none` unless the input is a non-empty
run of decimal digits. -/
def parseDigits : List Char → Nat → Option Nat
  | [], acc => some acc
  | c :: cs, acc =>
    if c.isDigit then parseDigits cs (acc * 10 + (c.toNat - 48)) else none

/-- Python's `int(...)` on a string: an optional leading minus sign
followed by decimal digits (Python additionally strips whitespace and
allows `+` and digit-group underscores; such filenames are not modelled).
`none` models the `ValueError` that makes the file be skipped. -/
def pyInt : List Char → Option Int
  | [] => none
  | '-' :: rest =>
    match rest with
    | [] => none
    | _ => (parseDigits rest 0).map fun n => -(n : Int)
  | cs => (parseDigits cs 0).map fun n => (n : Int)

/-- `int(path.stem.split('_')[-1])` (main.py line 244): the last
underscore-separated segment of the stem, parsed as an integer. -/
def embeddedNum (f : ImgFile) : Option Int :=
  pyInt ((splitChar '_' f.stem.data []).getLastD [])

/-- Comparison used for `valid_images.sort(key=lambda x: x[0])`: ascending
by the extracted number. Python's sort is stable; so is Mathlib's
`insertionSort` with this relation, so the two agree exactly. -/
def byNum (a b : Int × ImgFile) : Prop := a.1 ≤ b.1

instance : DecidableRel byNum := fun a b => inferInstanceAs (Decidable (a.1 ≤ b.1))

instance : IsTotal (Int × ImgFile) byNum := ⟨fun a b => Int.le_total a.1 b.1⟩

instance : IsTrans (Int × ImgFile) byNum := ⟨fun _ _ _ h h2 => le_trans h h2⟩

/-- Embedding of `_get_sorted_image_paths` (main.py lines 227-251), the
directory contents passed explicitly in directory order: gather files
matching `{post_type}_*.png` then `{post_type}_*.jpg`, keep those whose
last stem segment parses as an integer, and sort ascending by that
number. -/
def get_sorted_image_paths (post_type : String) (image_dir : List ImgFile) : List ImgFile :=
  let image_paths :=
    image_dir.filter (globMatch post_type "png") ++ image_dir.filter (globMatch post_type "jpg")
  let valid_images := image_paths.filterMap fun p => (embeddedNum p).map fun n => (n, p)
  (valid_images.insertionSort byNum).map Prod.snd

example : get_sorted_image_paths "daily"
    [⟨"daily_3", "png"⟩, ⟨"daily_001", "jpg"⟩, ⟨"other_2", "png"⟩,
     ⟨"daily_x", "png"⟩, ⟨"daily_2", "gif"⟩] =
    [⟨"daily_001", "jpg"⟩, ⟨"daily_3", "png"⟩] := by decide

/-! ## Publishers (src/social/) and orchestration (main.py) -/

/-- The two handler classes the factory can construct. -/
inductive Handler where
  | facebook
  | twitter
deriving DecidableEq, Repr

/-- Number of required parameters of `TwitterHandler.__init__`
(twitter.py lines 8-15): `consumer_key`, `consumer_secret`,
`access_token`, `access_secret`, `bearer_token`, none with a default. -/
def TwitterHandler_init_params : Nat := 5

/-- Number of arguments `SocialFactory.get_handler` passes to
`TwitterHandler` (social_factory.py lines 14-19): `bearer_token` is never
supplied. -/
def get_handler_twitter_args : Nat := 4

/-- Embedding of `SocialFactory.get_handler` (social_factory.py lines
6-21). Calling `TwitterHandler` with fewer arguments than its required
parameters raises `TypeError` before the constructor body runs, so the
body (which could raise `tweepy.TweepyException` on auth failure) is
unreachable. An unknown platform raises `ValueError`.
`FacebookHandler.__init__` only stores its arguments and cannot raise. -/
def get_handler (platform : String) : Except PyExn Handler :=
  if platform = "facebook" then .ok .facebook
  else if platform = "twitter" then
    if get_handler_twitter_args = TwitterHandler_init_params then .ok .twitter
    else .error .typeError
  else .error .valueError

/-- Outcome of the one external `handler.post(text, image_path)` call,
supplied as an environment parameter: the call returned a value — `none`
models Python `None`, the handlers' failure signal (`FacebookHandler.post`
always returns `None`; `TwitterHandler.post` returns the tweet data on
success and `None` on failure) — or it raised an exception
(e.g. an uncaught `requests` error from `FacebookHandler.post`, or
`OSError` from opening the image file). -/
inductive PubResult where
  | returns (data : Option Unit)
  | raises (e : PyExn)
deriving DecidableEq, Repr

/-- The `except (KeyError, ValueError, OSError, TypeError)` tuple of
`process_platform_posts` (main.py line 196). -/
def processCaught : PyExn → Bool
  | .keyError => true
  | .valueError => true
  | .osError => true
  | .typeError => true
  | _ => false

/-- The `except (OSError, KeyError, ValueError)` tuple of `main`
(main.py line 162). -/
def mainCaught : PyExn → Bool
  | .osError => true
  | .keyError => true
  | .valueError => true
  | _ => false

/-- The `try` body of `process_platform_posts` (main.py lines 176-195)
for one platform: select the next post, prepare content, call
`post_content` (build the handler, publish), and only then overwrite the
platform's cursor with `update_platform_state`. The return value of
`handler.post` is discarded by `post_content`. Returns the platform's
cursor after the body. -/
def processBody (platform : String) (posts : List Post) (images : List String)
    (st : Cursor) (pub : PubResult) : Except PyExn Cursor :=
  match get_next_post posts platform st.post_index with
  | .error e => .error e
  | .ok (none, _) => .ok st
  | .ok (some post, next_index) =>
    match prepare_post_content post platform st.image_index images with
    | none => .ok st
    | some (_text, _image_path, next_image_index) =>
      match get_handler platform with
      | .error e => .error e
      | .ok _handler =>
        match pub with
        | .raises e => .error e
        | .returns _data =>
          .ok { post_index := next_index, image_index := next_image_index }

/-- Embedding of `process_platform_posts` (main.py lines 174-197): the body
wrapped in its `except` clause. A caught exception is logged and leaves the
cursor unchanged; any other exception propagates. -/
def process_platform_posts (platform : String) (posts : List Post)
    (images : List String) (st : Cursor) (pub : PubResult) : Except PyExn Cursor :=
  match processBody platform posts images st pub with
  | .ok c => .ok c
  | .error e => if processCaught e then .ok st else .error e

/-- Observable outcome of one `main` invocation: the in-memory state when
the run ends, whether `save_state` was reached, and the exception escaping
`main`, if any. -/
structure RunOutcome where
  state : BotState
  saved : Bool
  escaped : Option PyExn
deriving DecidableEq, Repr

/-- Embedding of the platform loop and final save of `main` (main.py lines
157-163), the loaded posts, image list and initial state passed explicitly:
process `"facebook"` then `"twitter"`, then `save_state`. An exception
escaping `process_platform_posts` skips the rest of the loop and the save;
`main` catches it only if it is in its own `except` tuple, otherwise it
escapes the program. -/
def main_run (posts : List Post) (images : List String) (st0 : BotState)
    (pubFb pubTw : PubResult) : RunOutcome :=
  match process_platform_posts "facebook" posts images st0.facebook pubFb with
  | .error e =>
    { state := st0, saved := false,
      escaped := if mainCaught e then none else some e }
  | .ok fb1 =>
    let st1 : BotState := { st0 with facebook := fb1 }
    match process_platform_posts "twitter" posts images st1.twitter pubTw with
    | .error e =>
      { state := st1, saved := false,
        escaped := if mainCaught e then none else some e }
    | .ok tw1 =>
      { state := { st1 with twitter := tw1 }, saved := true, escaped := none }

/-! ## Spec-side description of the selector, for the refinement claim -/

/-- Whether the post at position `i` is eligible for `platform`. -/
def eligAt (posts : List Post) (platform : String) (i : Nat) : Bool :=
  match posts[i]? with
  | some p => decide (platform ∈ p.platforms)
  | none => false

/-- Written after the spec's words (spec.md §4.1): scan positions from
`start_index` to the end, then wrap from the beginning up to
`start_index`; the first eligible position `i` yields that post and next
index `i + 1`; otherwise no post and next index 0. To be compared with
`get_next_post`, which is translated from the code. -/
def next_post_spec (posts : List Post) (platform : String) (start_index : Nat) :
    Option Post × Nat :=
  let order := List.range' start_index (posts.length - start_index) ++ List.range start_index
  match order.find? (eligAt posts platform) with
  | some i => (posts[i]?, i + 1)
  | none => (none, 0)

/-- `scanIdx` over in-range indices never raises and returns the first
eligible index's post and successor position. -/
theorem scanIdx_eq_find (posts : List Post) (platform : String) (idxs : List Nat)
    (hlt : ∀ i ∈ idxs, i < posts.length) :
    scanIdx posts platform idxs =
      .ok ((idxs.find? (eligAt posts platform)).bind
        fun i => posts[i]?.map fun p => (p, i + 1)) := by
  induction idxs with
  | nil => rfl
  | cons i rest ih =>
    have hi : i < posts.length := hlt i (List.mem_cons_self i rest)
    have hp : posts[i]? = some posts[i] := List.getElem?_eq_getElem hi
    by_cases hm : platform ∈ posts[i].platforms
    · have he : eligAt posts platform i = true := by
        simp [eligAt, hp, hm]
      rw [List.find?_cons_of_pos _ he]
      simp [scanIdx, hp, hm]
    · have he : ¬ eligAt posts platform i = true := by
        simp [eligAt, hp, hm]
      rw [List.find?_cons_of_neg _ he]
      have ih2 := ih (fun j hj => hlt j (List.mem_cons_of_mem _ hj))
      simp [scanIdx, hp, hm, ih2]

/-- Refinement: for a start index within bounds (at most the list length),
`get_next_post` computes exactly the behaviour the spec describes. -/
theorem get_next_post_eq_spec (posts : List Post) (platform : String)
    (start_index : Nat) (h : start_index ≤ posts.length) :
    get_next_post posts platform start_index =
      .ok (next_post_spec posts platform start_index) := by
  have h1 : ∀ i ∈ List.range' start_index (posts.length - start_index),
      i < posts.length := by
    intro i hi
    obtain ⟨k, hk, rfl⟩ := List.mem_range'.1 hi
    omega
  have h2 : ∀ i ∈ List.range start_index, i < posts.length := by
    intro i hi
    have := List.mem_range.1 hi
    omega
  rw [get_next_post, scanIdx_eq_find posts platform _ h1,
      scanIdx_eq_find posts platform _ h2, next_post_spec]
  rw [List.find?_append]
  cases hf1 : (List.range' start_index (posts.length - start_index)).find?
      (eligAt posts platform) with
  | some i =>
    have hi : i < posts.length :=
      h1 i (List.mem_of_find?_eq_some hf1)
    have hp : posts[i]? = some posts[i] := List.getElem?_eq_getElem hi
    simp [Option.or, hp]
  | none =>
    cases hf2 : (List.range start_index).find? (eligAt posts platform) with
    | some i =>
      have hi : i < posts.length := h2 i (List.mem_of_find?_eq_some hf2)
      have hp : posts[i]? = some posts[i] := List.getElem?_eq_getElem hi
      simp [Option.or, hp]
    | none => simp [Option.or]

/-! ## Helper lemmas about the per-platform step -/

/-- `mainCaught` exceptions are a subset of `processCaught` ones. -/
theorem mainCaught_subset (e : PyExn) (h : processCaught e = false) :
    mainCaught e = false := by
  cases e <;> simp_all [processCaught, mainCaught]

/-- Characterization of the `try` body of `process_platform_posts` when
the stored post index is within bounds. -/
theorem processBody_eq (platform : String) (posts : List Post) (images : List String)
    (st : Cursor) (pub : PubResult) (hsel : st.post_index ≤ posts.length) :
    processBody platform posts images st pub =
      match next_post_spec posts platform st.post_index with
      | (none, _) => .ok st
      | (some post, ni) =>
        match prepare_post_content post platform st.image_index images with
        | none => .ok st
        | some (_, _, nii) =>
          match get_handler platform with
          | .error e => .error e
          | .ok _ =>
            match pub with
            | .raises e => .error e
            | .returns _ => .ok { post_index := ni, image_index := nii } := by
  unfold processBody
  rw [get_next_post_eq_spec posts platform st.post_index hsel]
  cases hnp : next_post_spec posts platform st.post_index with
  | mk o n =>
    cases o with
    | none => rfl
    | some post => dsimp only

/-- With an in-bounds post index, processing the `"twitter"` platform
always succeeds with the cursor unchanged: either no post is selected, or
the handler construction raises `TypeError`, which the per-platform
`except` clause catches. -/
theorem process_twitter_unchanged (posts : List Post) (images : List String)
    (st : Cursor) (pub : PubResult) (hsel : st.post_index ≤ posts.length) :
    process_platform_posts "twitter" posts images st pub = .ok st := by
  unfold process_platform_posts
  rw [processBody_eq "twitter" posts images st pub hsel]
  cases hnp : next_post_spec posts "twitter" st.post_index with
  | mk o n =>
    cases o with
    | none => rfl
    | some post =>
      dsimp only
      cases prepare_post_content post "twitter" st.image_index images with
      | none => rfl
      | some t =>
        obtain ⟨txt, ip, nii⟩ := t
        rfl

/-- A publish call that raises a caught exception leaves the cursor
unchanged, for any platform (the factory's own errors, `ValueError` and
`TypeError`, are caught as well). -/
theorem process_raises_caught (platform : String) (posts : List Post)
    (images : List String) (st : Cursor) (e : PyExn)
    (hc : processCaught e = true) (hsel : st.post_index ≤ posts.length) :
    process_platform_posts platform posts images st (.raises e) = .ok st := by
  unfold process_platform_posts
  rw [processBody_eq platform posts images st (.raises e) hsel]
  cases hnp : next_post_spec posts platform st.post_index with
  | mk o n =>
    cases o with
    | none => rfl
    | some post =>
      dsimp only
      cases prepare_post_content post platform st.image_index images with
      | none => rfl
      | some t =>
        obtain ⟨txt, ip, nii⟩ := t
        dsimp only
        cases hh : get_handler platform with
        | error e2 =>
          have hcc : processCaught e2 = true := by
            unfold get_handler at hh
            by_cases h1 : platform = "facebook"
            · simp [h1] at hh
            · by_cases h2 : platform = "twitter" <;>
                simp [h1, h2, get_handler_twitter_args, TwitterHandler_init_params] at hh <;>
                simp [← hh, processCaught]
          dsimp only
          simp [hcc]
        | ok hdl =>
          dsimp only
          simp [hc]

/-! ## Claims -/

/-- C1 counterexample: the claim quantifies over every start index, but
for start index 2 on a one-post list with no eligible post the wrap scan
indexes past the end and `get_next_post` raises `IndexError` instead of
returning no post and next index 0. -/
theorem claim_C1_cex :
    get_next_post [{ text := "a", platforms := ["facebook"] }] "twitter" 2 =
      .error .indexError ∧
    get_next_post [{ text := "a", platforms := ["facebook"] }] "twitter" 2 ≠
      .ok (none, 0) := by
  exact ⟨rfl, by decide⟩

/-- C1 (amended): for every list of posts, platform name, and start index
at most the list length, `get_next_post` scans from the start index to the
end and then wraps from the beginning, returning the first post whose
platforms contain the platform together with the matched position + 1, and
no post with next index 0 when none is eligible — exactly the behaviour
`next_post_spec` prescribes. (For a start index beyond the list length the
wrap scan can raise `IndexError` instead; see the counterexample.) -/
theorem claim_C1 (posts : List Post) (platform : String) (start_index : Nat)
    (h : start_index ≤ posts.length) :
    get_next_post posts platform start_index =
      .ok (next_post_spec posts platform start_index) :=
  get_next_post_eq_spec posts platform start_index h

/-- C1 witness: the claim's example — posts `[fb], [tw], [fb, tw]`,
platform twitter, start index 0 — returns the second post and next
index 2. -/
theorem claim_C1_witness :
    (0 : Nat) ≤ 3 ∧
    get_next_post
      [{ text := "p0", platforms := ["facebook"] },
       { text := "p1", platforms := ["twitter"] },
       { text := "p2", platforms := ["facebook", "twitter"] }] "twitter" 0 =
      .ok (some { text := "p1", platforms := ["twitter"] }, 2) := by
  refine ⟨by decide, ?_⟩
  rw [claim_C1 _ _ _ (by decide)]
  rfl

/-- C2 counterexample: the persisted post cursor is used without a modulo
reduction, so with cursor 3 over a one-post list (shrunk since the cursor
was written) the wrap scan performs an out-of-range access and raises
`IndexError`, contradicting the claim that no out-of-range access can
occur. -/
theorem claim_C2_cex :
    get_next_post [{ text := "only-fb", platforms := ["facebook"] }] "twitter" 3 =
      .error .indexError := rfl

/-- C2 (amended): only the image cursor is taken modulo the current
collection length — `prepare_post_content` reduces it modulo the image
count, so image selection never goes out of range however large the
persisted value — while the post cursor is used as-is by `get_next_post`,
which can raise `IndexError` when the cursor exceeds the current post-list
length (second conjunct: a concrete such run). -/
theorem claim_C2 (post : Post) (platform : String) (idx : Nat)
    (images : List String)
    (hfmt : format_post post platform ≠ "") (himg : images ≠ []) :
    prepare_post_content post platform idx images =
      some (format_post post platform,
        some (images.get ⟨idx % images.length,
          Nat.mod_lt _ (List.length_pos.2 himg)⟩),
        (idx + 1) % images.length) ∧
    get_next_post [{ text := "only-fb", platforms := ["facebook"] }] "twitter" 2 =
      .error .indexError := by
  refine ⟨?_, rfl⟩
  unfold prepare_post_content
  rw [if_neg hfmt, dif_neg (fun h0 => himg (List.length_eq_zero.1 h0))]

/-- C2 witness: image cursor 7 over three images selects index 7 % 3 = 1
and advances to 8 % 3 = 2. -/
theorem claim_C2_witness :
    format_post { text := "t", platforms := ["facebook"] } "facebook" ≠ "" ∧
    (["a", "b", "c"] : List String) ≠ [] ∧
    prepare_post_content { text := "t", platforms := ["facebook"] } "facebook" 7
      ["a", "b", "c"] = some ("t", some "b", 2) := by
  refine ⟨by decide, by decide, ?_⟩
  rw [(claim_C2 { text := "t", platforms := ["facebook"] } "facebook" 7
    ["a", "b", "c"] (by decide) (by decide)).1]
  rfl

/-- C3 counterexample: the Facebook handler's `post` returns `None` (the
non-success result; it never returns anything else), `post_content`
discards the returned value, and the cursor is advanced anyway — the claim
that a publisher signalling failure by its return value leaves the cursor
unchanged is false. -/
theorem claim_C3_cex :
    process_platform_posts "facebook" [{ text := "m", platforms := ["facebook"] }]
      ["img1", "img2"] { post_index := 0, image_index := 0 } (.returns none) =
      .ok { post_index := 1, image_index := 1 } ∧
    ({ post_index := 1, image_index := 1 } : Cursor) ≠
      { post_index := 0, image_index := 0 } := by
  exact ⟨rfl, by decide⟩

/-- C3 (amended): once a post is selected and content prepared, the cursor
is advanced whenever the publish call returns — whatever value it returns,
including the `None` the handlers use to signal failure, which
`post_content` discards — and is left unchanged only when the publish call
raises: a caught exception type ends the platform step with the old
cursor, any other exception propagates out of the step, also leaving the
cursor unchanged. -/
theorem claim_C3 (platform : String) (posts : List Post) (images : List String)
    (st : Cursor) (post : Post) (ni : Nat) (txt : String) (ip : Option String)
    (nii : Nat)
    (hsel : st.post_index ≤ posts.length)
    (hspec : next_post_spec posts platform st.post_index = (some post, ni))
    (hprep : prepare_post_content post platform st.image_index images =
      some (txt, ip, nii))
    (hdl : Handler) (hget : get_handler platform = .ok hdl) :
    (∀ d, process_platform_posts platform posts images st (.returns d) =
      .ok { post_index := ni, image_index := nii }) ∧
    (∀ e, processCaught e = true →
      process_platform_posts platform posts images st (.raises e) = .ok st) ∧
    (∀ e, processCaught e = false →
      process_platform_posts platform posts images st (.raises e) = .error e) := by
  refine ⟨fun d => ?_, fun e he => ?_, fun e he => ?_⟩ <;>
    (unfold process_platform_posts
     rw [processBody_eq platform posts images st _ hsel, hspec]
     dsimp only
     rw [hprep]
     dsimp only
     rw [hget]) <;>
    (dsimp only
     rw [he]
     rfl)

/-- C3 witness: on a concrete Facebook run, a publish call that returns a
value advances the cursor, a caught `OSError` leaves it unchanged, and an
uncaught `requests` error propagates with the cursor unchanged. -/
theorem claim_C3_witness :
    process_platform_posts "facebook" [{ text := "w", platforms := ["facebook"] }]
      ["i1"] { post_index := 0, image_index := 0 } (.returns (some ())) =
      .ok { post_index := 1, image_index := 0 } ∧
    process_platform_posts "facebook" [{ text := "w", platforms := ["facebook"] }]
      ["i1"] { post_index := 0, image_index := 0 } (.raises .osError) =
      .ok { post_index := 0, image_index := 0 } ∧
    process_platform_posts "facebook" [{ text := "w", platforms := ["facebook"] }]
      ["i1"] { post_index := 0, image_index := 0 } (.raises .requestsError) =
      .error .requestsError := by
  have h := claim_C3 "facebook" [{ text := "w", platforms := ["facebook"] }] ["i1"]
    { post_index := 0, image_index := 0 } { text := "w", platforms := ["facebook"] }
    1 "w" (some "i1") 0 (by decide) rfl rfl .facebook rfl
  exact ⟨h.1 (some ()), h.2.1 .osError rfl, h.2.2 .requestsError rfl⟩

/-- C4 counterexample: a legacy state file storing the bare integer 5 for
facebook is migrated to `{post_index: 5, image_index: 0}`, not to the
default cursor `{0, 0}` the claim prescribes for the legacy format. -/
theorem claim_C4_cex :
    load_state (.parsed { facebook := some (.int 5), twitter := none }) =
      { facebook := { post_index := 5, image_index := 0 },
        twitter := { post_index := 0, image_index := 0 } } ∧
    ({ post_index := 5, image_index := 0 } : Cursor) ≠ default_cursor := by
  exact ⟨rfl, by decide⟩

/-- C4 (amended): `load_state` never raises on any modelled state-file
content; a missing file or a parse failure yields the default cursor
`{0, 0}` for each platform; a legacy bare-integer value `n` is migrated to
`{post_index: n, image_index: 0}` (the integer is preserved, not reset);
a structured cursor keeps its values with absent keys defaulted to 0, and
an absent platform key gets the default cursor. -/
theorem claim_C4 :
    load_state .missing = { facebook := default_cursor, twitter := default_cursor } ∧
    load_state .unreadable = { facebook := default_cursor, twitter := default_cursor } ∧
    (∀ s : RawState, load_state (.parsed s) =
      { facebook := migrate_platform s.facebook,
        twitter := migrate_platform s.twitter }) ∧
    (∀ n, migrate_platform (some (.int n)) = { post_index := n, image_index := 0 }) ∧
    (∀ pi ii, migrate_platform (some (.dict pi ii)) =
      { post_index := pi.getD 0, image_index := ii.getD 0 }) ∧
    migrate_platform none = default_cursor :=
  ⟨rfl, rfl, fun _ => rfl, fun _ => rfl, fun _ _ => rfl, rfl⟩

/-- C5: with formattable text, `prepare_post_content` selects the image at
index `current mod N` and advances to `(current + 1) mod N` over a
non-empty image list of size N (expressed with `getElem?`, which is `none`
exactly on the empty list), and returns no image with next index 0 on an
empty list. -/
theorem claim_C5 (post : Post) (platform : String) (idx : Nat)
    (images : List String) (hfmt : format_post post platform ≠ "") :
    prepare_post_content post platform idx images =
      some (format_post post platform, images[idx % images.length]?,
        if images.length = 0 then 0 else (idx + 1) % images.length) := by
  unfold prepare_post_content
  rw [if_neg hfmt]
  by_cases h : images.length = 0
  · rw [dif_pos h, if_pos h]
    have h0 : images = [] := List.length_eq_zero.1 h
    subst h0
    rfl
  · rw [dif_neg h, if_neg h,
      List.getElem?_eq_getElem (Nat.mod_lt _ (Nat.pos_of_ne_zero h))]
    rfl

/-- C5 witness: the claim's example — images `[a, b, c]`, current index 2 —
returns `c` and next index 0; an empty image list returns no image and
next index 0. -/
theorem claim_C5_witness :
    format_post { text := "hello", platforms := ["facebook", "twitter"] } "twitter" ≠ "" ∧
    prepare_post_content { text := "hello", platforms := ["facebook", "twitter"] }
      "twitter" 2 ["a", "b", "c"] = some ("hello", some "c", 0) ∧
    prepare_post_content { text := "hello", platforms := ["facebook", "twitter"] }
      "twitter" 5 [] = some ("hello", none, 0) := by
  refine ⟨by decide, ?_, ?_⟩
  · rw [claim_C5 _ _ _ _ (by decide)]
    rfl
  · rw [claim_C5 _ _ _ _ (by decide)]
    rfl

/-- C6: saving any well-formed state (each platform a structured cursor;
the indices are `Nat`, hence non-negative) and loading it back yields an
identical structure. -/
theorem claim_C6 (s : BotState) : load_state (save_state s) = s := rfl

/-- C7 counterexample: constructing the twitter publisher raises
`TypeError`, yet the error does not propagate out of the per-platform
processing step — `process_platform_posts` catches it and returns with the
cursor unchanged — contradicting the claim that every publisher
construction error propagates out of the run. -/
theorem claim_C7_cex :
    get_handler "twitter" = .error .typeError ∧
    process_platform_posts "twitter" [{ text := "t7", platforms := ["twitter"] }]
      ["i1"] { post_index := 0, image_index := 0 } (.returns none) =
      .ok { post_index := 0, image_index := 0 } :=
  ⟨rfl, rfl⟩

/-- C7 (amended): fatality is decided by the exception type, not by where
it arose: the per-platform clause catches `KeyError`, `ValueError`,
`OSError` and `TypeError` — including the factory's `TypeError` for
twitter, so with an in-bounds cursor the twitter step always completes
with the cursor unchanged — while an exception outside these types raised
during the publish call propagates out of the per-platform step. -/
theorem claim_C7 :
    (∀ (posts : List Post) (images : List String) (st : Cursor) (pub : PubResult),
      st.post_index ≤ posts.length →
      process_platform_posts "twitter" posts images st pub = .ok st) ∧
    (∀ e, processCaught e = false →
      process_platform_posts "facebook" [{ text := "f7", platforms := ["facebook"] }]
        ["i1"] { post_index := 0, image_index := 0 } (.raises e) = .error e) := by
  constructor
  · exact fun posts images st pub h => process_twitter_unchanged posts images st pub h
  · intro e he
    have hb : processBody "facebook" [{ text := "f7", platforms := ["facebook"] }]
        ["i1"] { post_index := 0, image_index := 0 } (.raises e) = .error e := rfl
    unfold process_platform_posts
    rw [hb]
    dsimp only
    rw [he]
    rfl

/-- C7 witness: a twitter step completes unchanged; an uncaught
`TweepyException`-class error at the facebook publish step propagates. -/
theorem claim_C7_witness :
    process_platform_posts "twitter" [] [] { post_index := 0, image_index := 0 }
      (.returns none) = .ok { post_index := 0, image_index := 0 } ∧
    process_platform_posts "facebook" [{ text := "f7", platforms := ["facebook"] }]
      ["i1"] { post_index := 0, image_index := 0 } (.raises .tweepyError) =
      .error .tweepyError :=
  ⟨claim_C7.1 [] [] _ _ (by decide), claim_C7.2 .tweepyError rfl⟩

/-- C8 counterexample: an `IndexError` raised while selecting a post for
facebook (stored cursor 2, one-post list) is not caught at the
per-platform boundary: it aborts the run, the twitter platform is not
processed and the final state save is skipped. -/
theorem claim_C8_cex :
    main_run [{ text := "t", platforms := ["twitter"] }] ["i1"]
      { facebook := { post_index := 2, image_index := 0 },
        twitter := { post_index := 0, image_index := 0 } }
      (.returns none) (.returns (some ())) =
      { state := { facebook := { post_index := 2, image_index := 0 },
                   twitter := { post_index := 0, image_index := 0 } },
        saved := false, escaped := some .indexError } := rfl

/-- C8 (amended): an exception of the caught types (`KeyError`,
`ValueError`, `OSError`, `TypeError`) raised during facebook's publish
step is caught at the per-platform boundary and the run continues — the
facebook cursor is unchanged, the twitter platform is still processed and
the final save happens — while an exception outside these types (second
conjunct, facebook publish raising it on a concrete run) escapes the
per-platform boundary, aborts the loop, skips the save and escapes `main`
as well. -/
theorem claim_C8 (posts : List Post) (images : List String) (st0 : BotState)
    (pubTw : PubResult) (e : PyExn)
    (hc : processCaught e = true)
    (hfb : st0.facebook.post_index ≤ posts.length)
    (htw : st0.twitter.post_index ≤ posts.length) :
    ((main_run posts images st0 (.raises e) pubTw).saved = true ∧
     (main_run posts images st0 (.raises e) pubTw).escaped = none ∧
     (main_run posts images st0 (.raises e) pubTw).state.facebook = st0.facebook) ∧
    (∀ e2, processCaught e2 = false →
      (main_run [{ text := "m", platforms := ["facebook"] }] ["i1"]
        { facebook := { post_index := 0, image_index := 0 },
          twitter := { post_index := 0, image_index := 0 } }
        (.raises e2) pubTw).saved = false ∧
      (main_run [{ text := "m", platforms := ["facebook"] }] ["i1"]
        { facebook := { post_index := 0, image_index := 0 },
          twitter := { post_index := 0, image_index := 0 } }
        (.raises e2) pubTw).escaped = some e2) := by
  constructor
  · have h1 := process_raises_caught "facebook" posts images st0.facebook e hc hfb
    have h2 := process_twitter_unchanged posts images st0.twitter pubTw htw
    unfold main_run
    rw [h1]
    dsimp only
    rw [h2]
    exact ⟨rfl, rfl, rfl⟩
  · intro e2 he2
    have hm := mainCaught_subset e2 he2
    have hb : processBody "facebook" [{ text := "m", platforms := ["facebook"] }]
        ["i1"] { post_index := 0, image_index := 0 } (.raises e2) = .error e2 := rfl
    have hp : process_platform_posts "facebook"
        [{ text := "m", platforms := ["facebook"] }] ["i1"]
        { post_index := 0, image_index := 0 } (.raises e2) = .error e2 := by
      unfold process_platform_posts
      rw [hb]
      dsimp only
      rw [he2]
      rfl
    unfold main_run
    rw [hp]
    dsimp only
    rw [hm]
    exact ⟨rfl, rfl⟩

/-- C8 witness: with a caught `OSError` at facebook's publish step the run
still saves at the end; with an uncaught `IndexError` it does not. -/
theorem claim_C8_witness :
    (main_run [{ text := "m", platforms := ["facebook"] }] ["i1"]
      { facebook := { post_index := 0, image_index := 0 },
        twitter := { post_index := 0, image_index := 0 } }
      (.raises .osError) (.returns none)).saved = true ∧
    (main_run [{ text := "m", platforms := ["facebook"] }] ["i1"]
      { facebook := { post_index := 0, image_index := 0 },
        twitter := { post_index := 0, image_index := 0 } }
      (.raises .indexError) (.returns none)).saved = false := by
  have h := claim_C8 [{ text := "m", platforms := ["facebook"] }] ["i1"]
    { facebook := { post_index := 0, image_index := 0 },
      twitter := { post_index := 0, image_index := 0 } }
    (.returns none) .osError rfl (by decide) (by decide)
  exact ⟨h.1.1, (h.2 .indexError rfl).1⟩

/-- C10: the factory calls the `TwitterHandler` constructor with 4
arguments while it requires 5 (the bearer token is never supplied), so
`get_handler "twitter"` raises `TypeError` on every invocation, the
handler is never constructed, and — `TypeError` being in the per-platform
`except` tuple — the twitter step completes with the cursor unchanged and
the run continues. -/
theorem claim_C10 :
    get_handler_twitter_args = 4 ∧ TwitterHandler_init_params = 5 ∧
    get_handler "twitter" = .error .typeError ∧
    processCaught .typeError = true ∧
    ∀ (posts : List Post) (images : List String) (st : Cursor) (pub : PubResult),
      st.post_index ≤ posts.length →
      process_platform_posts "twitter" posts images st pub = .ok st :=
  ⟨rfl, rfl, rfl, rfl,
   fun posts images st pub h => process_twitter_unchanged posts images st pub h⟩

/-- C10 witness: a concrete twitter run with an eligible post leaves the
cursor unchanged. -/
theorem claim_C10_witness :
    process_platform_posts "twitter" [{ text := "tw", platforms := ["twitter"] }]
      ["i1"] { post_index := 0, image_index := 0 } (.returns (some ())) =
      .ok { post_index := 0, image_index := 0 } :=
  claim_C10.2.2.2.2 _ _ _ _ (by decide)

/-- C9: the ordered image list for a category contains exactly the
directory's files matching `{post_type}_*.png` or `{post_type}_*.jpg`
whose final underscore-separated stem segment parses as an integer, and it
is sorted in ascending order of that embedded number. -/
theorem claim_C9 (post_type : String) (dir : List ImgFile) :
    (∀ f, f ∈ get_sorted_image_paths post_type dir ↔
      (f ∈ dir ∧
       (globMatch post_type "png" f = true ∨ globMatch post_type "jpg" f = true) ∧
       (embeddedNum f).isSome = true)) ∧
    List.Pairwise (fun a b => (embeddedNum a).getD 0 ≤ (embeddedNum b).getD 0)
      (get_sorted_image_paths post_type dir) := by
  have hinv : ∀ a ∈ (((dir.filter (globMatch post_type "png") ++
        dir.filter (globMatch post_type "jpg")).filterMap
        fun p => (embeddedNum p).map fun n => (n, p)).insertionSort byNum),
      embeddedNum a.2 = some a.1 := by
    intro a ha
    have ham := (List.mem_insertionSort byNum).1 ha
    obtain ⟨p, hp, hg⟩ := List.mem_filterMap.1 ham
    cases he : embeddedNum p with
    | none => rw [he] at hg; simp at hg
    | some n =>
      rw [he] at hg
      simp only [Option.map_some', Option.some.injEq] at hg
      rw [← hg]
      exact he
  constructor
  · intro f
    constructor
    · intro hf
      obtain ⟨a, ha, ha2⟩ := List.mem_map.1 hf
      have ham := (List.mem_insertionSort byNum).1 ha
      obtain ⟨p, hp, hg⟩ := List.mem_filterMap.1 ham
      cases he : embeddedNum p with
      | none => rw [he] at hg; simp at hg
      | some n =>
        rw [he] at hg
        simp only [Option.map_some', Option.some.injEq] at hg
        have hpf : p = f := by rw [← hg] at ha2; exact ha2
        subst hpf
        refine ⟨?_, ?_, by simp [he]⟩
        · rcases List.mem_append.1 hp with h | h
          · exact (List.mem_filter.1 h).1
          · exact (List.mem_filter.1 h).1
        · rcases List.mem_append.1 hp with h | h
          · exact Or.inl (List.mem_filter.1 h).2
          · exact Or.inr (List.mem_filter.1 h).2
    · rintro ⟨hdir, hglob, hnum⟩
      obtain ⟨n, hn⟩ := Option.isSome_iff_exists.1 hnum
      have hp : f ∈ dir.filter (globMatch post_type "png") ++
          dir.filter (globMatch post_type "jpg") := by
        rcases hglob with h | h
        · exact List.mem_append.2 (Or.inl (List.mem_filter.2 ⟨hdir, h⟩))
        · exact List.mem_append.2 (Or.inr (List.mem_filter.2 ⟨hdir, h⟩))
      have hval : (n, f) ∈ (dir.filter (globMatch post_type "png") ++
          dir.filter (globMatch post_type "jpg")).filterMap
          fun p => (embeddedNum p).map fun n => (n, p) :=
        List.mem_filterMap.2 ⟨f, hp, by rw [hn]; rfl⟩
      exact List.mem_map.2 ⟨(n, f), (List.mem_insertionSort byNum).2 hval, rfl⟩
  · have hs := List.sorted_insertionSort byNum
      ((dir.filter (globMatch post_type "png") ++
        dir.filter (globMatch post_type "jpg")).filterMap
        fun p => (embeddedNum p).map fun n => (n, p))
    refine List.pairwise_map.2 ?_
    refine hs.imp_of_mem ?_
    intro a b ha hb hr
    rw [hinv a ha, hinv b hb]
    exact hr
